import Mathlib

/-!
Shallow embedding of the authorization and custody core of the
bottled-secrets application: the role/permission registry
(app/auth/roles.py), the identity context (app/auth/models.py), the
folder/secret access-control model (app/models.py), the administrative
role-assignment service (app/admin/user_manager.py) and the folder
creation route (app/folders/routes.py).  Pure functions are translated
directly; environment lookups and random number generation are passed
in as explicit parameters.
-/

namespace BottledSecrets

/-- Roles of app/auth/roles.py, enum UserRole. -/
inductive UserRole where
  | USER_ADMINISTRATOR
  | REGULAR_USER
  | GUEST
deriving DecidableEq, Repr

/-- Permissions of app/auth/roles.py, enum Permission. -/
inductive Permission where
  | MANAGE_USERS
  | MANAGE_ROLES
  | VIEW_ADMIN_PANEL
  | VIEW_USER_LIST
  | ACCESS_SECRETS
  | MANAGE_SECRETS
deriving DecidableEq, Repr

/-- UserRole.get_all_roles. -/
def get_all_roles : List UserRole :=
  [UserRole.USER_ADMINISTRATOR, UserRole.REGULAR_USER, UserRole.GUEST]

/-- UserRole.get_role_display_name. -/
def get_role_display_name : UserRole → String
  | UserRole.USER_ADMINISTRATOR => "User Administrator"
  | UserRole.REGULAR_USER => "Regular User"
  | UserRole.GUEST => "Guest User"

/-- RoleManager._ROLE_PERMISSIONS together with
RoleManager.get_role_permissions (the .copy() is the identity in a
value semantics). -/
def get_role_permissions : UserRole → Finset Permission
  | UserRole.USER_ADMINISTRATOR =>
      {Permission.MANAGE_USERS, Permission.MANAGE_ROLES,
       Permission.VIEW_ADMIN_PANEL, Permission.VIEW_USER_LIST,
       Permission.ACCESS_SECRETS, Permission.MANAGE_SECRETS}
  | UserRole.REGULAR_USER => {Permission.ACCESS_SECRETS, Permission.MANAGE_SECRETS}
  | UserRole.GUEST => ∅

/-- RoleManager.get_default_role. -/
def get_default_role : UserRole := UserRole.REGULAR_USER

/-- RoleManager.can_assign_role: only User Administrators can assign
roles; the target role is ignored. -/
def can_assign_role (assigner_roles : Finset UserRole) (_target_role : UserRole) : Bool :=
  decide (UserRole.USER_ADMINISTRATOR ∈ assigner_roles)

/-- RoleManager.validate_role_assignment, returning the (is_valid,
error_message) pair of the source. -/
def validate_role_assignment (assigner_email : String) (assigner_roles : Finset UserRole)
    (target_email : String) (target_role : UserRole) : Bool × String :=
  if ¬ (can_assign_role assigner_roles target_role = true) then
    (false, "Insufficient permissions to assign roles")
  else if assigner_email = target_email ∧ target_role = UserRole.USER_ADMINISTRATOR then
    (false, "Cannot assign User Administrator role to yourself")
  else if ¬ target_role ∈ get_all_roles then
    (false, "Invalid role")
  else
    (true, "")

/-- Dataclass UserPermissions of app/auth/roles.py.  The timestamp is
modelled as a natural number supplied by the caller. -/
structure UserPermissions where
  roles : Finset UserRole
  permissions : Finset Permission
  assigned_by : Option String
  assigned_at : Nat
deriving DecidableEq

/-- UserPermissions._update_permissions: clear the permission set and
re-derive it as the union of the permission sets of the current roles. -/
def update_permissions (u : UserPermissions) : UserPermissions :=
  { u with permissions := u.roles.biUnion get_role_permissions }

/-- UserPermissions.add_role. -/
def add_role (u : UserPermissions) (role : UserRole) (assigner : String) (now : Nat) :
    UserPermissions :=
  update_permissions
    { u with roles := insert role u.roles, assigned_by := some assigner, assigned_at := now }

/-- UserPermissions.remove_role. -/
def remove_role (u : UserPermissions) (role : UserRole) : UserPermissions :=
  update_permissions { u with roles := u.roles.erase role }

/-- A single mutation of the role set through the public entry points. -/
inductive RoleCall where
  | add (role : UserRole) (assigner : String) (now : Nat)
  | remove (role : UserRole)
deriving DecidableEq, Repr

/-- Run one role mutation call against an identity state. -/
def apply_role_call (u : UserPermissions) : RoleCall → UserPermissions
  | RoleCall.add r assigner now => add_role u r assigner now
  | RoleCall.remove r => remove_role u r

/-- Lower-casing of an email, modelling the Python str.lower() calls of
the source on ASCII emails. -/
def lower_str (s : String) : String :=
  String.mk (s.data.map Char.toLower)

/-- Access types of app/models.py, enum AccessType. -/
inductive AccessType where
  | READ
  | WRITE
  | ADMIN
deriving DecidableEq, Repr

/-- Model FolderPermission of app/models.py: the per-user access flags
of one folder row.  The folder id is implicit in the owning folder
record; the timestamp column is not read by any embedded operation. -/
structure FolderPermission where
  user_email : String
  can_read : Bool
  can_write : Bool
  can_admin : Bool
  granted_by : String
deriving DecidableEq, Repr

/-- FolderPermission.__init__ with the column defaults used by
Folder.grant_access (can_read true, can_write false, can_admin false). -/
def mk_folder_permission (user_email granted_by : String) : FolderPermission :=
  { user_email := user_email, can_read := true, can_write := false,
    can_admin := false, granted_by := granted_by }

/-- Model Folder of app/models.py.  The permission rows of the folder
are carried in creation order; is_active is the soft-delete flag with
its column default true. -/
structure Folder where
  name : String
  path : String
  created_by : String
  icon : String
  description : Option String
  parent_id : Option Nat
  permissions : List FolderPermission
  is_active : Bool
deriving DecidableEq, Repr

/-- Python str.startswith applied to the one character slash: true
exactly when the first character of the string is a slash. -/
def starts_with_slash (s : String) : Bool :=
  match s.data with
  | [] => false
  | c :: _ => c = '/'

/-- Folder.__init__: raises ValueError when name, path or created_by is
falsy or when the path does not start with a slash; otherwise sets the
supplied fields, the permission list empty and is_active true by the
column defaults. -/
def folder_init (name path created_by icon : String) (description : Option String)
    (parent_id : Option Nat) : Except String Folder :=
  if name = "" ∨ path = "" ∨ created_by = "" then
    Except.error "Name, path, and created_by are required"
  else if ¬ starts_with_slash path then
    Except.error "Path must start with /"
  else
    Except.ok
      { name := name, path := path, created_by := created_by, icon := icon,
        description := description, parent_id := parent_id,
        permissions := [], is_active := true }

/-- The first permission row whose user_email equals the given email,
as scanned by the loops of Folder.has_access and Folder.grant_access. -/
def find_permission : List FolderPermission → String → Option FolderPermission
  | [], _ => none
  | p :: ps, e => if p.user_email = e then some p else find_permission ps e

/-- The flag of a permission row for one access type, as read by the
body of the Folder.has_access loop. -/
def access_flag (p : FolderPermission) : AccessType → Bool
  | AccessType.READ => p.can_read
  | AccessType.WRITE => p.can_write
  | AccessType.ADMIN => p.can_admin

/-- Folder.has_access: the creator is granted unconditionally under
exact string comparison; otherwise the first matching permission row
answers with its flag for the requested access type; otherwise deny. -/
def has_access (f : Folder) (user_email : String) (t : AccessType) : Bool :=
  if f.created_by = user_email then true
  else
    match find_permission f.permissions user_email with
    | some p => access_flag p t
    | none => false

/-- The flag mutations of Folder.grant_access on the located or freshly
created row: READ sets can_read, WRITE sets can_read and can_write,
ADMIN sets all three. -/
def set_access_flags (p : FolderPermission) : AccessType → FolderPermission
  | AccessType.READ => { p with can_read := true }
  | AccessType.WRITE => { p with can_read := true, can_write := true }
  | AccessType.ADMIN => { p with can_read := true, can_write := true, can_admin := true }

/-- In-place escalation of the first row matching the email, as done by
Folder.grant_access when a row already exists. -/
def escalate_permission : List FolderPermission → String → AccessType → List FolderPermission
  | [], _, _ => []
  | p :: ps, e, t =>
    if p.user_email = e then set_access_flags p t :: ps
    else p :: escalate_permission ps e t

/-- Folder.grant_access: locate the first row of the grantee and
escalate its flags, or append a fresh default row and escalate that. -/
def grant_access (f : Folder) (user_email : String) (t : AccessType) (granted_by : String) :
    Folder :=
  match find_permission f.permissions user_email with
  | some _ => { f with permissions := escalate_permission f.permissions user_email t }
  | none =>
    { f with permissions :=
        f.permissions ++ [set_access_flags (mk_folder_permission user_email granted_by) t] }

/-- The decision procedure of the specification for folder access,
amended to the exact string comparison the source performs: creator
match grants unconditionally, otherwise the first matching permission
row answers with the flag of the requested access type, otherwise deny,
with no ancestor folder consulted. -/
def has_access_spec (f : Folder) (user_email : String) (t : AccessType) : Bool :=
  if f.created_by = user_email then true
  else
    match f.permissions.find? (fun p => p.user_email == user_email) with
    | some p =>
      match t with
      | AccessType.READ => p.can_read
      | AccessType.WRITE => p.can_write
      | AccessType.ADMIN => p.can_admin
    | none => false

/-- The UserRole(value) enum constructor of Python: the role whose value
string matches, none when the string is no role value (the ValueError
branch of the callers). -/
def user_role_of_value (s : String) : Option UserRole :=
  if s = "user_administrator" then some UserRole.USER_ADMINISTRATOR
  else if s = "regular_user" then some UserRole.REGULAR_USER
  else if s = "guest" then some UserRole.GUEST
  else none

/-- One step of the role restoration loop of User.from_session: a
recognised token is added, an unrecognised token is silently skipped. -/
def parse_role_step (acc : Finset UserRole) (t : String) : Finset UserRole :=
  match user_role_of_value t with
  | some r => insert r acc
  | none => acc

/-- The role restoration loop of User.from_session over the stored role
value list. -/
def parse_session_roles (tokens : List String) : Finset UserRole :=
  tokens.foldl parse_role_step ∅

/-- The role initialisation of User.__init__: a falsy roles argument
(absent or empty) assigns the default role, then the permissions are
derived. -/
def user_init_permissions (roles : Option (Finset UserRole)) (now : Nat) : UserPermissions :=
  let rs := roles.getD ∅
  update_permissions
    { roles := if rs = ∅ then {get_default_role} else rs,
      permissions := ∅, assigned_by := none, assigned_at := now }

/-- User.from_session restricted to the role state: restore the roles
from the stored value list, then run the constructor role logic. -/
def user_from_session_roles (tokens : List String) (now : Nat) : UserPermissions :=
  user_init_permissions (some (parse_session_roles tokens)) now

/-- UserManager.remove_role_from_user of app/admin/user_manager.py on
its role state: the admin role check, the case-insensitive self-removal
guard, the target lookup (the cached role set of the target, none when
the target is unknown), role removal and the default role injection.
The returned pair carries the (success, message) result and the role
set stored for the target afterwards. -/
def remove_role_from_user (admin_roles : Finset UserRole) (admin_email target_email : String)
    (role : UserRole) (target_roles : Option (Finset UserRole)) :
    (Bool × String) × Option (Finset UserRole) :=
  if ¬ (UserRole.USER_ADMINISTRATOR ∈ admin_roles) then
    ((false, "Insufficient permissions to remove roles"), target_roles)
  else if lower_str admin_email = lower_str target_email ∧ role = UserRole.USER_ADMINISTRATOR then
    ((false, "Cannot remove User Administrator role from yourself"), target_roles)
  else
    match target_roles with
    | none => ((false, "User " ++ target_email ++ " not found"), none)
    | some rs =>
      let removed := rs.erase role
      let final := if removed = ∅ then insert get_default_role removed else removed
      ((true, "Role " ++ get_role_display_name role ++ " removed successfully"), some final)

/-- Decryption failure of the authenticated cipher, the InvalidToken
exception of the cryptography package. -/
inductive DecryptError where
  | InvalidToken
deriving DecidableEq, Repr

/-- Modelled from the spec: Fernet of the external cryptography package
is not part of this repository.  The spec describes it as authenticated
symmetric encryption whose tokens decrypt only under the key that
produced them, so a token is modelled as the key-payload pair with the
authentication check abstracted as exact key agreement. -/
structure FernetToken where
  token_key : String
  payload : String
deriving DecidableEq, Repr

/-- Modelled from the spec: Fernet(key).encrypt(value). -/
def fernet_encrypt (key value : String) : FernetToken :=
  { token_key := key, payload := value }

/-- Modelled from the spec: Fernet(key).decrypt(token) fails for a
wrong-key token rather than returning corrupted plaintext. -/
def fernet_decrypt (key : String) (t : FernetToken) : Except DecryptError String :=
  if t.token_key = key then Except.ok t.payload
  else Except.error DecryptError.InvalidToken

/-- Modelled from the spec: base64 of the Python standard library, an
invertible encoding of the token into the stored text column. -/
structure B64Text where
  decoded : FernetToken
deriving DecidableEq, Repr

/-- Modelled from the spec: base64.b64encode. -/
def b64encode (t : FernetToken) : B64Text := { decoded := t }

/-- Modelled from the spec: base64.b64decode. -/
def b64decode (b : B64Text) : FernetToken := b.decoded

/-- Secret._get_encryption_key: the environment variable
SECRETS_ENCRYPTION_KEY is modelled as an Option, the per-call random
generation of base64(os.urandom(32)) as the fresh_random_key parameter;
when the environment holds no key the call silently proceeds with the
fresh random key instead of failing. -/
def get_encryption_key (env_key : Option String) (fresh_random_key : String) : String :=
  match env_key with
  | some k => k
  | none => fresh_random_key

/-- Secret._encrypt_value: encrypt under the key of
Secret._get_encryption_key and base64-encode the token. -/
def encrypt_value (env_key : Option String) (fresh_random_key value : String) : B64Text :=
  b64encode (fernet_encrypt (get_encryption_key env_key fresh_random_key) value)

/-- Secret._decrypt_value: base64-decode the stored text and decrypt it
under the key of Secret._get_encryption_key. -/
def decrypt_value (env_key : Option String) (fresh_random_key : String) (c : B64Text) :
    Except DecryptError String :=
  fernet_decrypt (get_encryption_key env_key fresh_random_key) (b64decode c)

/-- A persisted folder row, the folder record with its primary key. -/
structure FolderRow where
  row_id : Nat
  folder : Folder
deriving DecidableEq, Repr

/-- Folder.query.filter_by(path=path, is_active=True).first() of the
creation route. -/
def query_active_path (rows : List FolderRow) (path : String) : Option FolderRow :=
  rows.find? (fun r => decide (r.folder.path = path) && r.folder.is_active)

/-- Folder.query.filter_by(id=folder_id, is_active=True).first(). -/
def query_active_id (rows : List FolderRow) (fid : Nat) : Option FolderRow :=
  rows.find? (fun r => decide (r.row_id = fid) && r.folder.is_active)

/-- Whether any row, active or soft-deleted, already holds the path:
the UNIQUE constraint of the folders.path column checked by the
database at commit. -/
def path_exists (rows : List FolderRow) (path : String) : Bool :=
  rows.any (fun r => decide (r.folder.path = path))

/-- api_create_folder of app/folders/routes.py as a function from the
persisted folder table to the HTTP status and the new table: the field
validations, the duplicate check scoped to active folders, the parent
existence and write-access checks, folder construction, and the commit,
at which the schema-level UNIQUE constraint on folders.path rejects a
path held by any row including soft-deleted ones (the raised
IntegrityError is caught and answered with status 500 after rollback). -/
def api_create_folder (rows : List FolderRow) (user_email name path icon : String)
    (description : Option String) (parent_id : Option Nat) (new_id : Nat) :
    Nat × List FolderRow :=
  if name = "" then (400, rows)
  else if path = "" then (400, rows)
  else if ¬ starts_with_slash path then (400, rows)
  else if (query_active_path rows path).isSome then (409, rows)
  else
    let commit : Nat × List FolderRow :=
      match folder_init name path user_email icon description parent_id with
      | Except.error _ => (500, rows)
      | Except.ok f =>
        if path_exists rows path then (500, rows)
        else (201, rows ++ [{ row_id := new_id, folder := f }])
    match parent_id with
    | none => commit
    | some pid =>
      match query_active_id rows pid with
      | none => (404, rows)
      | some parent_row =>
        if ¬ has_access parent_row.folder user_email AccessType.WRITE then (403, rows)
        else commit

end BottledSecrets

namespace BottledSecrets

/-- C4: for every identity state, every finite sequence of add_role and
remove_role calls, and every final call, immediately after that call the
derived permission set equals the union of the role permission sets over
the current roles. -/
theorem permissions_always_union_of_roles :
    ∀ (u : UserPermissions) (calls : List RoleCall) (c : RoleCall),
      (apply_role_call (calls.foldl apply_role_call u) c).permissions
        = (apply_role_call (calls.foldl apply_role_call u) c).roles.biUnion
            get_role_permissions := by
  intro u calls c
  cases c <;>
    simp [apply_role_call, add_role, remove_role, update_permissions]

theorem set_access_flags_user_email (p : FolderPermission) (t : AccessType) :
    (set_access_flags p t).user_email = p.user_email := by
  cases t <;> rfl

theorem find_permission_eq_findq (ps : List FolderPermission) (e : String) :
    find_permission ps e = ps.find? (fun p => p.user_email == e) := by
  induction ps with
  | nil => rfl
  | cons p ps ih =>
    by_cases h : p.user_email = e
    · simp [find_permission, List.find?, h]
    · have hb : (p.user_email == e) = false := by
        simp [h]
      simp [find_permission, List.find?, h, hb, ih]

theorem find_escalate_self (ps : List FolderPermission) (e : String) (t : AccessType) :
    find_permission (escalate_permission ps e t) e
      = (find_permission ps e).map (fun p => set_access_flags p t) := by
  induction ps with
  | nil => rfl
  | cons p ps ih =>
    by_cases h : p.user_email = e
    · simp [escalate_permission, find_permission, set_access_flags_user_email, h]
    · simp [escalate_permission, find_permission, h, ih]

theorem find_escalate_ne (ps : List FolderPermission) (e : String) (t : AccessType)
    (e2 : String) (h : e2 ≠ e) :
    find_permission (escalate_permission ps e t) e2 = find_permission ps e2 := by
  induction ps with
  | nil => rfl
  | cons p ps ih =>
    have hsym : ¬ e = e2 := fun hx => h hx.symm
    by_cases hp : p.user_email = e
    · have hne : ¬ (set_access_flags p t).user_email = e2 := by
        rw [set_access_flags_user_email, hp]
        exact hsym
      have hne2 : ¬ p.user_email = e2 := by
        rw [hp]; exact hsym
      simp [escalate_permission, find_permission, hp, hne, hne2, hsym]
    · by_cases hp2 : p.user_email = e2
      · simp [escalate_permission, find_permission, hp, hp2, h, hsym]
      · simp [escalate_permission, find_permission, hp, hp2, ih]

theorem find_permission_append_some (ps : List FolderPermission) (q : FolderPermission)
    (e : String) (p : FolderPermission) (h : find_permission ps e = some p) :
    find_permission (ps ++ [q]) e = some p := by
  induction ps with
  | nil => simp [find_permission] at h
  | cons r ps ih =>
    by_cases hr : r.user_email = e
    · simp [find_permission, hr] at h ⊢
      exact h
    · simp [find_permission, hr] at h ⊢
      exact ih h

theorem find_permission_append_none (ps : List FolderPermission) (q : FolderPermission)
    (e : String) (h : find_permission ps e = none) :
    find_permission (ps ++ [q]) e
      = if q.user_email = e then some q else none := by
  induction ps with
  | nil => rfl
  | cons r ps ih =>
    by_cases hr : r.user_email = e
    · simp [find_permission, hr] at h
    · simp [find_permission, hr] at h ⊢
      exact ih h

theorem access_flag_le (p : FolderPermission) (t t2 : AccessType) :
    access_flag p t2 ≤ access_flag (set_access_flags p t) t2 := by
  cases t <;> cases t2 <;>
    simp [access_flag, set_access_flags, Bool.le_true]

theorem grant_access_created_by (f : Folder) (e : String) (t : AccessType) (g : String) :
    (grant_access f e t g).created_by = f.created_by := by
  unfold grant_access
  cases find_permission f.permissions e <;> rfl

theorem find_permission_grant_self (f : Folder) (e : String) (t : AccessType) (g : String) :
    find_permission (grant_access f e t g).permissions e
      = some (set_access_flags
          ((find_permission f.permissions e).getD (mk_folder_permission e g)) t) := by
  unfold grant_access
  cases h : find_permission f.permissions e with
  | some p => simp [find_escalate_self, h]
  | none =>
    simp only []
    rw [find_permission_append_none _ _ _ h]
    rw [set_access_flags_user_email]
    simp [mk_folder_permission, h]

theorem find_permission_grant_ne (f : Folder) (e : String) (t : AccessType) (g : String)
    (e2 : String) (h : e2 ≠ e) :
    find_permission (grant_access f e t g).permissions e2
      = find_permission f.permissions e2 := by
  unfold grant_access
  cases hf : find_permission f.permissions e with
  | some p => simp [find_escalate_ne _ _ _ _ h]
  | none =>
    simp only []
    cases h2 : find_permission f.permissions e2 with
    | some p2 => rw [find_permission_append_some _ _ _ _ h2]
    | none =>
      rw [find_permission_append_none _ _ _ h2]
      rw [set_access_flags_user_email]
      have : ¬ (mk_folder_permission e g).user_email = e2 := by
        simp [mk_folder_permission]
        exact fun hx => h hx.symm
      simp [this]

theorem has_access_after_grant (f : Folder) (e g : String) (t t2 : AccessType)
    (h : access_flag (set_access_flags
          ((find_permission f.permissions e).getD (mk_folder_permission e g)) t) t2
        = true) :
    has_access (grant_access f e t g) e t2 = true := by
  unfold has_access
  by_cases hc : (grant_access f e t g).created_by = e
  · simp [hc]
  · simp only [hc, if_false]
    rw [find_permission_grant_self]
    exact h

end BottledSecrets

namespace BottledSecrets

/-- C1 (amended to the exact string comparison the code performs): for
every folder, user email and access type, has_access follows exactly
the decision procedure of the specification — unconditional grant when
the creator matches the email, otherwise the flag of the first matching
permission row, otherwise denial — and consults no ancestor folder: the
result is invariant under any change of the parent reference. -/
theorem has_access_decision_procedure :
    ∀ (f : Folder) (e : String) (t : AccessType),
      has_access f e t = has_access_spec f e t ∧
      (∀ pid : Option Nat, has_access { f with parent_id := pid } e t = has_access f e t) := by
  intro f e t
  constructor
  · unfold has_access has_access_spec
    rw [find_permission_eq_findq]
    by_cases h : f.created_by = e
    · simp [h]
    · simp only [h, if_false]
      cases f.permissions.find? (fun p => p.user_email == e) with
      | none => rfl
      | some p => cases t <;> rfl
  · intro pid
    rfl

/-- C1 counterexample to the claim as stated: the creator comparison of
has_access is case-sensitive, so a user whose email equals the creator
email only up to case is denied, although the claim demands an
unconditional grant under case-insensitive comparison. -/
theorem has_access_case_sensitive_counterexample :
    lower_str "Admin@x" = lower_str "admin@x" ∧
    has_access
      { name := "prod", path := "/prod", created_by := "Admin@x", icon := "folder",
        description := none, parent_id := none, permissions := [], is_active := true }
      "admin@x" AccessType.READ = false := by
  constructor
  · rfl
  · rfl

/-- C2: a grant only ever raises access flags: has_access is monotone
under grant_access for every user and access type, granting READ sets
the read flag, WRITE sets read and write, ADMIN sets all three, so a
later grant of a lower access type leaves every previously granted
access intact. -/
theorem grant_access_only_escalates :
    ∀ (f : Folder) (e : String) (t : AccessType) (g : String) (e2 : String) (t2 : AccessType),
      (has_access f e2 t2 ≤ has_access (grant_access f e t g) e2 t2) ∧
      has_access (grant_access f e AccessType.READ g) e AccessType.READ = true ∧
      has_access (grant_access f e AccessType.WRITE g) e AccessType.READ = true ∧
      has_access (grant_access f e AccessType.WRITE g) e AccessType.WRITE = true ∧
      has_access (grant_access f e AccessType.ADMIN g) e AccessType.READ = true ∧
      has_access (grant_access f e AccessType.ADMIN g) e AccessType.WRITE = true ∧
      has_access (grant_access f e AccessType.ADMIN g) e AccessType.ADMIN = true := by
  intro f e t g e2 t2
  refine ⟨?_, ?_, ?_, ?_, ?_, ?_, ?_⟩
  · unfold has_access
    rw [grant_access_created_by]
    by_cases hc : f.created_by = e2
    · simp [hc]
    · simp only [hc, if_false]
      by_cases he : e2 = e
      · subst he
        rw [find_permission_grant_self]
        cases hp : find_permission f.permissions e2 with
        | none => simp
        | some p => simp [access_flag_le]
      · rw [find_permission_grant_ne _ _ _ _ _ he]
  · exact has_access_after_grant f e g AccessType.READ AccessType.READ rfl
  · exact has_access_after_grant f e g AccessType.WRITE AccessType.READ rfl
  · exact has_access_after_grant f e g AccessType.WRITE AccessType.WRITE rfl
  · exact has_access_after_grant f e g AccessType.ADMIN AccessType.READ rfl
  · exact has_access_after_grant f e g AccessType.ADMIN AccessType.WRITE rfl
  · exact has_access_after_grant f e g AccessType.ADMIN AccessType.ADMIN rfl

/-- C10: constructing a folder errors exactly when name, path or
created_by is empty or the path does not start with a slash, and on
success every stored field equals the supplied argument. -/
theorem folder_init_validation :
    ∀ (n p c i : String) (d : Option String) (q : Option Nat),
      ((∃ err, folder_init n p c i d q = Except.error err) ↔
        (n = "" ∨ p = "" ∨ c = "" ∨ starts_with_slash p = false)) ∧
      (∀ f, folder_init n p c i d q = Except.ok f →
        f.name = n ∧ f.path = p ∧ f.created_by = c ∧ f.icon = i ∧
        f.description = d ∧ f.parent_id = q) := by
  intro n p c i d q
  constructor
  · constructor
    · rintro ⟨err, herr⟩
      unfold folder_init at herr
      by_cases h1 : n = "" ∨ p = "" ∨ c = ""
      · tauto
      · rw [if_neg h1] at herr
        by_cases h2 : ¬ (starts_with_slash p = true)
        · have : starts_with_slash p = false := by
            cases hx : starts_with_slash p
            · rfl
            · exact absurd hx h2
          tauto
        · rw [if_neg h2] at herr
          cases herr
    · intro h
      by_cases h1 : n = "" ∨ p = "" ∨ c = ""
      · exact ⟨"Name, path, and created_by are required", by
          unfold folder_init; rw [if_pos h1]⟩
      · have h2 : ¬ (starts_with_slash p = true) := by
          rcases h with h | h | h | h
          · exact absurd (Or.inl h) h1
          · exact absurd (Or.inr (Or.inl h)) h1
          · exact absurd (Or.inr (Or.inr h)) h1
          · simp [h]
        exact ⟨"Path must start with /", by
          unfold folder_init; rw [if_neg h1, if_pos h2]⟩
  · intro f hf
    unfold folder_init at hf
    by_cases h1 : n = "" ∨ p = "" ∨ c = ""
    · rw [if_pos h1] at hf
      cases hf
    · rw [if_neg h1] at hf
      by_cases h2 : ¬ (starts_with_slash p = true)
      · rw [if_pos h2] at hf
        cases hf
      · rw [if_neg h2] at hf
        injection hf with hr
        subst hr
        exact ⟨rfl, rfl, rfl, rfl, rfl, rfl⟩

/-- C10 witness: the validation theorem applied at one rejected and one
accepted concrete construction. -/
theorem folder_init_validation_witness :
    (∃ err, folder_init "" "/keys" "alice@x" "folder" none none = Except.error err) ∧
    (Folder.mk "keys" "/keys" "alice@x" "folder" none none [] true).path = "/keys" := by
  have hok : folder_init "keys" "/keys" "alice@x" "folder" none none
      = Except.ok (Folder.mk "keys" "/keys" "alice@x" "folder" none none [] true) := by
    unfold folder_init
    rw [if_neg (by decide :
      ¬ (("keys" : String) = "" ∨ ("/keys" : String) = "" ∨ ("alice@x" : String) = ""))]
    rw [if_neg (by decide : ¬ ¬ (starts_with_slash "/keys" = true))]
  constructor
  · exact ((folder_init_validation "" "/keys" "alice@x" "folder" none none).1).2
      (Or.inl rfl)
  · exact ((folder_init_validation "keys" "/keys" "alice@x" "folder" none none).2
      (Folder.mk "keys" "/keys" "alice@x" "folder" none none [] true) hok).2.1

end BottledSecrets

namespace BottledSecrets

theorem foldl_parse_role_step_invalid : ∀ (ts : List String) (acc : Finset UserRole),
    (∀ t ∈ ts, user_role_of_value t = none) →
    ts.foldl parse_role_step acc = acc
  | [], _, _ => rfl
  | t :: ts, acc, h => by
    have ht : user_role_of_value t = none := h t (List.mem_cons_self t ts)
    have h2 : ∀ x ∈ ts, user_role_of_value x = none :=
      fun x hx => h x (List.mem_cons_of_mem t hx)
    rw [List.foldl_cons]
    rw [show parse_role_step acc t = acc from by simp [parse_role_step, ht]]
    exact foldl_parse_role_step_invalid ts acc h2

/-- C3 (amended to the exact string comparison the code performs): a
User Administrator assigning the User Administrator role to an email
exactly equal to their own is denied with the self-elevation message,
and an assigner without the User Administrator role is denied with the
insufficient-permissions message for every target role and any emails. -/
theorem validate_role_assignment_denials :
    ∀ (ae : String) (roles : Finset UserRole) (te : String),
      (UserRole.USER_ADMINISTRATOR ∈ roles → ae = te →
        validate_role_assignment ae roles te UserRole.USER_ADMINISTRATOR
          = (false, "Cannot assign User Administrator role to yourself")) ∧
      (UserRole.USER_ADMINISTRATOR ∉ roles → ∀ tr,
        validate_role_assignment ae roles te tr
          = (false, "Insufficient permissions to assign roles")) := by
  intro ae roles te
  constructor
  · intro hmem heq
    have h1 : ¬ ¬ (can_assign_role roles UserRole.USER_ADMINISTRATOR = true) := by
      simp [can_assign_role, hmem]
    unfold validate_role_assignment
    rw [if_neg h1, if_pos ⟨heq, rfl⟩]
  · intro hmem tr
    have h1 : ¬ (can_assign_role roles tr = true) := by
      simp [can_assign_role, hmem]
    unfold validate_role_assignment
    rw [if_pos h1]

/-- C3 witness: the denial theorem applied at the self-assignment of
the spec scenario and at an assigner without roles. -/
theorem validate_role_assignment_denials_witness :
    validate_role_assignment "admin@x" {UserRole.USER_ADMINISTRATOR} "admin@x"
        UserRole.USER_ADMINISTRATOR
      = (false, "Cannot assign User Administrator role to yourself") ∧
    validate_role_assignment "admin@x" (∅ : Finset UserRole) "user@x" UserRole.REGULAR_USER
      = (false, "Insufficient permissions to assign roles") := by
  have h := validate_role_assignment_denials "admin@x" {UserRole.USER_ADMINISTRATOR} "admin@x"
  have h2 := validate_role_assignment_denials "admin@x" (∅ : Finset UserRole) "user@x"
  exact ⟨h.1 (by decide) rfl, h2.2 (by decide) UserRole.REGULAR_USER⟩

/-- C3 counterexample to the claim as stated: the self-elevation guard
compares the emails case-sensitively, so an administrator whose email
differs from the target only in case passes validation although the
claim demands a self-elevation denial under case-insensitive
comparison. -/
theorem validate_role_assignment_case_counterexample :
    lower_str "Admin@x" = lower_str "admin@x" ∧
    validate_role_assignment "Admin@x" {UserRole.USER_ADMINISTRATOR} "admin@x"
        UserRole.USER_ADMINISTRATOR
      = (true, "") := by
  constructor
  · rfl
  · decide

/-- C8: the role-removal service denies an assigner without the User
Administrator role with the insufficient-permissions message for every
role and any emails, denies a User Administrator removing the User
Administrator role from an email equal to their own up to case with the
self-demotion message, and in both failures returns the stored target
role state unchanged. -/
theorem remove_role_denials :
    ∀ (admin_roles : Finset UserRole) (ae te : String) (target : Option (Finset UserRole)),
      (UserRole.USER_ADMINISTRATOR ∈ admin_roles → lower_str ae = lower_str te →
        remove_role_from_user admin_roles ae te UserRole.USER_ADMINISTRATOR target
          = ((false, "Cannot remove User Administrator role from yourself"), target)) ∧
      (UserRole.USER_ADMINISTRATOR ∉ admin_roles → ∀ r,
        remove_role_from_user admin_roles ae te r target
          = ((false, "Insufficient permissions to remove roles"), target)) := by
  intro ar ae te target
  constructor
  · intro hmem heq
    have h1 : ¬ ¬ (UserRole.USER_ADMINISTRATOR ∈ ar) := not_not_intro hmem
    unfold remove_role_from_user
    rw [if_neg h1, if_pos ⟨heq, rfl⟩]
  · intro hmem r
    unfold remove_role_from_user
    rw [if_pos hmem]

/-- C8 witness: the denial theorem applied at a self-demotion whose
emails agree only up to case and at an assigner without roles. -/
theorem remove_role_denials_witness :
    remove_role_from_user {UserRole.USER_ADMINISTRATOR} "Admin@x" "admin@x"
        UserRole.USER_ADMINISTRATOR (some {UserRole.USER_ADMINISTRATOR})
      = ((false, "Cannot remove User Administrator role from yourself"),
          some {UserRole.USER_ADMINISTRATOR}) ∧
    remove_role_from_user (∅ : Finset UserRole) "root@x" "user@x" UserRole.GUEST none
      = ((false, "Insufficient permissions to remove roles"), none) := by
  have h := remove_role_denials {UserRole.USER_ADMINISTRATOR} "Admin@x" "admin@x"
    (some {UserRole.USER_ADMINISTRATOR})
  have h2 := remove_role_denials (∅ : Finset UserRole) "root@x" "user@x" none
  exact ⟨h.1 (by decide) (by decide), h2.2 (by decide) UserRole.GUEST⟩

/-- C9: restoring a user from a session whose stored role list holds
only unrecognised role values yields the default role set consisting of
the regular user role, with its derived permissions, never an identity
with an empty role set. -/
theorem from_session_unknown_roles_default :
    ∀ (tokens : List String) (now : Nat),
      (∀ t ∈ tokens, user_role_of_value t = none) →
      (user_from_session_roles tokens now).roles = {UserRole.REGULAR_USER} ∧
      (user_from_session_roles tokens now).permissions
        = {Permission.ACCESS_SECRETS, Permission.MANAGE_SECRETS} := by
  intro tokens now h
  have hp : parse_session_roles tokens = ∅ :=
    foldl_parse_role_step_invalid tokens ∅ h
  unfold user_from_session_roles user_init_permissions
  rw [hp]
  simp [update_permissions, get_default_role]
  decide

/-- C9 witness: the default-role theorem applied at a session whose
stored role list holds two unrecognised values. -/
theorem from_session_unknown_roles_default_witness :
    (user_from_session_roles ["super_user", "manager"] 0).roles
      = {UserRole.REGULAR_USER} ∧
    (user_from_session_roles ["super_user", "manager"] 0).permissions
      = {Permission.ACCESS_SECRETS, Permission.MANAGE_SECRETS} :=
  from_session_unknown_roles_default ["super_user", "manager"] 0 (by decide)

/-- C7: with the environment key present and held fixed, decrypting the
encryption of any non-empty value returns the value, and decryption
under any different key fails with the decryption error instead of
returning corrupted plaintext. -/
theorem encrypt_decrypt_round_trip :
    ∀ (v k k2 fresh1 fresh2 : String), v ≠ "" →
      decrypt_value (some k) fresh1 (encrypt_value (some k) fresh2 v) = Except.ok v ∧
      (k2 ≠ k →
        decrypt_value (some k2) fresh1 (encrypt_value (some k) fresh2 v)
          = Except.error DecryptError.InvalidToken) := by
  intro v k k2 f1 f2 hv
  constructor
  · simp [decrypt_value, encrypt_value, get_encryption_key, fernet_encrypt,
      fernet_decrypt, b64encode, b64decode]
  · intro hk
    have hne : ¬ k = k2 := fun hx => hk hx.symm
    simp [decrypt_value, encrypt_value, get_encryption_key, fernet_encrypt,
      fernet_decrypt, b64encode, b64decode, hne]

/-- C7 witness: the round-trip theorem applied at a concrete value and
a concrete pair of distinct keys. -/
theorem encrypt_decrypt_round_trip_witness :
    decrypt_value (some "key_one") "fr1" (encrypt_value (some "key_one") "fr2" "s3cret")
      = Except.ok "s3cret" ∧
    decrypt_value (some "key_two") "fr1" (encrypt_value (some "key_one") "fr2" "s3cret")
      = Except.error DecryptError.InvalidToken := by
  have h := encrypt_decrypt_round_trip "s3cret" "key_one" "key_two" "fr1" "fr2" (by decide)
  exact ⟨h.1, h.2 (by decide)⟩

/-- C6 divergence witness: with no key material in the environment, the
key lookup does not fail fast but silently answers with the fresh
random key generated for that call, so encryption proceeds, and a later
decryption call, holding a different fresh random key, fails on the
stored ciphertext. -/
theorem missing_key_proceeds_with_fresh_key :
    get_encryption_key none "fresh_key_a" = "fresh_key_a" ∧
    get_encryption_key none "fresh_key_b" = "fresh_key_b" ∧
    encrypt_value none "fresh_key_a" "s3cret"
      = b64encode (fernet_encrypt "fresh_key_a" "s3cret") ∧
    decrypt_value none "fresh_key_b" (encrypt_value none "fresh_key_a" "s3cret")
      = Except.error DecryptError.InvalidToken := by
  refine ⟨rfl, rfl, rfl, ?_⟩
  rfl

/-- C5 divergence witness: with the table holding only a soft-deleted
folder at the path, the duplicate check of the route finds no active
collision, yet creating a folder at that path answers 500 from the
schema-level UNIQUE path constraint at commit, leaving the table
unchanged, instead of succeeding as path uniqueness scoped to active
folders would allow. -/
theorem create_after_soft_delete_returns_500 :
    (query_active_path
        [{ row_id := 1,
           folder := { name := "prod", path := "/prod", created_by := "alice@x",
                       icon := "folder", description := none, parent_id := none,
                       permissions := [], is_active := false } }] "/prod").isSome
      = false ∧
    api_create_folder
        [{ row_id := 1,
           folder := { name := "prod", path := "/prod", created_by := "alice@x",
                       icon := "folder", description := none, parent_id := none,
                       permissions := [], is_active := false } }]
        "bob@x" "prod" "/prod" "folder" none none 2
      = (500,
         [{ row_id := 1,
            folder := { name := "prod", path := "/prod", created_by := "alice@x",
                        icon := "folder", description := none, parent_id := none,
                        permissions := [], is_active := false } }]) := by
  constructor
  · decide
  · decide

end BottledSecrets
